import Mathlib

/-!
# Verification of the PyPyPy retry / throttle decorators

Shallow embedding of the core decorators of the repository:

* `src/pypypy/decorators/repeat_upon_error.py` — class `RepeatUponError`
  (modelled in namespace `Pypypy`);
* `src/request_mixin/decorators/repeat_upon_error.py` — class
  `RepeatUponError` (modelled in namespace `RequestMixin`);
* `src/request_mixin/decorators.py` — class `RepeatOnError`
  (modelled in namespace `RequestMixin`);
* `src/pypypy/decorators/sewd.py` — class `SegmentExecutionWithDelay`
  (modelled in namespace `Pypypy`);
* `src/request_mixin/decorators/sewd.py` — function
  `segment_execution_with_delay` (modelled in namespace `RequestMixin`).

Python exceptions are modelled by their class (a natural-number `kind`,
with `0` reserved for `KeyboardInterrupt`) plus a `tag` distinguishing
instances.  A wrapped callable is modelled as a function from the 0-based
attempt index to the outcome (`Except Exc α`) of that attempt, which is
adequate because the decorators always invoke the callable with the same
arguments.  Wall-clock instants and durations are modelled as rationals;
`time.sleep` is recorded as the amount slept, and the Python truthiness of
a stored timestamp (`None` and `0.0` are both falsy) is modelled
explicitly.
-/

/-- A Python exception instance: its class (`kind`, with `0` standing for
`KeyboardInterrupt`) and a tag distinguishing separate instances. -/
structure Exc where
  kind : Nat
  tag : Nat
deriving DecidableEq, Repr

/-- The exception class number reserved for `KeyboardInterrupt`. -/
def KeyboardInterruptKind : Nat := 0

/-- Outcome of invoking one of the retry wrappers. -/
inductive PyOutcome (α : Type) where
  /-- the wrapped callable returned a value, which the wrapper returns -/
  | ret : α → PyOutcome α
  /-- an exception propagates out of the wrapper unwrapped -/
  | raised : Exc → PyOutcome α
  /-- `raise StoredExceptionArray(error_container)`: the aggregate error,
      carrying the ordered list of collected exceptions -/
  | storedArray : List Exc → PyOutcome α
  /-- the `TypeError` Python raises when evaluating `x in None`
      (pypypy variant with `repeat_exception_types=None`) -/
  | typeErrorNoneMembership : PyOutcome α
  /-- the implicit `None` return when the attempt loop body never runs
      (unreachable when `attempt_count ≥ 1`) -/
  | noneFallthrough : PyOutcome α
deriving DecidableEq, Repr

/-- Python truthiness of the `repeat_exception_types` argument:
`None` and the empty list are falsy, a non-empty list is truthy. -/
def pyTruthy (types : Option (List Nat)) : Bool :=
  match types with
  | none => false
  | some ts => !ts.isEmpty

namespace Pypypy

/-- `RepeatUponError.__init__` of `src/pypypy/decorators/repeat_upon_error.py`:
validates `attempt_count` and raises `ValueError` when it is `≤ 0`. -/
def RepeatUponError.init (attempt_count : Int) (types : Option (List Nat)) :
    Except String (Int × Option (List Nat)) :=
  if attempt_count ≤ 0 then
    Except.error "ValueError: Attempt Count Must Be > 0"
  else
    Except.ok (attempt_count, types)

/-- The attempt loop of `RepeatUponError.__call__`
(`src/pypypy/decorators/repeat_upon_error.py`, lines 33–47).
`X` is the loop variable of `for X in range(0, self.attempt_count)`,
`remaining` the number of iterations left (`n - X`), `errs` the
`error_container` list, `invoked` the number of calls made so far.
The `except (Exception, KeyboardInterrupt)` clause catches interrupts
too, so no interrupt check appears here.  The line
`skip = self.repeat_exception_types or e.__class__ in self.repeat_exception_types`
short-circuits: a truthy (non-empty) list makes `skip` truthy without a
membership test, an empty list gives `e.__class__ in []` (false), and
`None` makes Python evaluate `e.__class__ in None`, which raises
`TypeError`. -/
def RepeatUponError.go (types : Option (List Nat)) (f : Nat → Except Exc α)
    (n X remaining : Nat) (errs : List Exc) (invoked : Nat) :
    PyOutcome α × Nat :=
  match remaining with
  | 0 => (PyOutcome.noneFallthrough, invoked)
  | r + 1 =>
    match f X with
    | Except.ok v => (PyOutcome.ret v, invoked + 1)
    | Except.error e =>
      let errs' := errs ++ [e]
      match types with
      | none => (PyOutcome.typeErrorNoneMembership, invoked + 1)
      | some ts =>
        let skip := !ts.isEmpty || ts.contains e.kind
        if !skip || X == n - 1 then (PyOutcome.storedArray errs', invoked + 1)
        else RepeatUponError.go types f n (X + 1) r errs' (invoked + 1)

/-- One full invocation of the pypypy `RepeatUponError.__call__`:
runs the attempt loop from `X = 0` with an empty `error_container`.
Returns the outcome together with the number of calls to the wrapped
callable. -/
def RepeatUponError.run (types : Option (List Nat)) (attempt_count : Nat)
    (f : Nat → Except Exc α) : PyOutcome α × Nat :=
  RepeatUponError.go types f attempt_count 0 attempt_count [] 0

end Pypypy

namespace RequestMixin

/-- `RepeatUponError.__init__` of
`src/request_mixin/decorators/repeat_upon_error.py` (identical text to the
pypypy copy): raises `ValueError` when `attempt_count ≤ 0`. -/
def RepeatUponError.init (attempt_count : Int) (types : Option (List Nat)) :
    Except String (Int × Option (List Nat)) :=
  if attempt_count ≤ 0 then
    Except.error "ValueError: Attempt Count Must Be > 0"
  else
    Except.ok (attempt_count, types)

/-- The attempt loop of `RepeatUponError.__call__`
(`src/request_mixin/decorators/repeat_upon_error.py`, lines 33–50).
The handler is `except Exception`, which does not catch
`KeyboardInterrupt`: an interrupt propagates out of `__call__` at once,
modelled by the kind-`0` test before anything is appended.  Otherwise:
with a falsy `repeat_exception_types` the final attempt re-raises the
last exception and earlier attempts continue; with a truthy list an
exception of a class not in the list is re-raised at once, a member
raises `StoredExceptionArray(error_container)` on the final attempt and
continues otherwise. -/
def RepeatUponError.go (types : Option (List Nat)) (f : Nat → Except Exc α)
    (n X remaining : Nat) (errs : List Exc) (invoked : Nat) :
    PyOutcome α × Nat :=
  match remaining with
  | 0 => (PyOutcome.noneFallthrough, invoked)
  | r + 1 =>
    match f X with
    | Except.ok v => (PyOutcome.ret v, invoked + 1)
    | Except.error e =>
      if e.kind == KeyboardInterruptKind then (PyOutcome.raised e, invoked + 1)
      else
        let errs' := errs ++ [e]
        let last_attempt := X == n - 1
        if !(pyTruthy types) then
          if last_attempt then (PyOutcome.raised e, invoked + 1)
          else RepeatUponError.go types f n (X + 1) r errs' (invoked + 1)
        else if !((types.getD []).contains e.kind) then
          (PyOutcome.raised e, invoked + 1)
        else if last_attempt then (PyOutcome.storedArray errs', invoked + 1)
        else RepeatUponError.go types f n (X + 1) r errs' (invoked + 1)

/-- One full invocation of the request_mixin `RepeatUponError.__call__`. -/
def RepeatUponError.run (types : Option (List Nat)) (attempt_count : Nat)
    (f : Nat → Except Exc α) : PyOutcome α × Nat :=
  RepeatUponError.go types f attempt_count 0 attempt_count [] 0

/-- `RepeatOnError._extract_attribute` of `src/request_mixin/decorators.py`,
lines 97–104.  A configuration value is either a bare number (`Sum.inl`)
or a pair of an attribute name and a fallback (`Sum.inr`); the calling
instance is modelled as an association list of its attributes.  A bare
value is returned unchanged; for a pair, the instance attribute is
returned when present (`hasattr`/`getattr`), else the fallback. -/
def RepeatOnError.extract_attribute (inst : List (String × Int))
    (setting : Sum Int (String × Int)) : Int :=
  match setting with
  | Sum.inl v => v
  | Sum.inr (a, d) =>
    match inst.lookup a with
    | some v => v
    | none => d

/-- `recursively_invoke_func` of `src/request_mixin/decorators.py`,
lines 55–72.  `idx` is the 0-based index of the current attempt (the
callable is always invoked with the same arguments; the index selects
the attempt's outcome), `attempt` the counter that starts at
`attempt_count - 1` and decreases.  `except KeyboardInterrupt: raise`
propagates interrupts; a truthy `repeat_exception_types` not containing
the exception's class re-raises it; otherwise the function recurses
while `attempt > 0` and re-raises the last exception when attempts are
exhausted (the `time.sleep(...)` between attempts does not affect the
outcome or the invocation count and is not modelled). -/
def RepeatOnError.go (types : Option (List Nat)) (f : Nat → Except Exc α)
    (idx attempt invoked : Nat) : PyOutcome α × Nat :=
  match f idx with
  | Except.ok v => (PyOutcome.ret v, invoked + 1)
  | Except.error e =>
    if e.kind == KeyboardInterruptKind then (PyOutcome.raised e, invoked + 1)
    else if pyTruthy types && !((types.getD []).contains e.kind) then
      (PyOutcome.raised e, invoked + 1)
    else
      match attempt with
      | 0 => (PyOutcome.raised e, invoked + 1)
      | a + 1 => RepeatOnError.go types f (idx + 1) a (invoked + 1)

/-- `RepeatOnError.__call__` with the attempt count already resolved and
clamped to `n ≥ 1`: `return recursively_invoke_func(attempt_count - 1)`. -/
def RepeatOnError.run (types : Option (List Nat)) (n : Nat)
    (f : Nat → Except Exc α) : PyOutcome α × Nat :=
  RepeatOnError.go types f 0 (n - 1) 0

/-- `RepeatOnError.__call__` of `src/request_mixin/decorators.py`,
lines 50–72: resolves the configured attempt count against the calling
instance with `_extract_attribute`, clamps it with
`max(..., 1)`, and runs `recursively_invoke_func(attempt_count - 1)`.
No validation happens at construction time: the dataclass `__init__`
accepts any attempt count. -/
def RepeatOnError.call (attempt_count_cfg : Sum Int (String × Int))
    (types : Option (List Nat)) (inst : List (String × Int))
    (f : Nat → Except Exc α) : PyOutcome α × Nat :=
  let attempt_count := max (RepeatOnError.extract_attribute inst attempt_count_cfg) 1
  RepeatOnError.run types attempt_count.toNat f

end RequestMixin

/-- Python truthiness of a stored timestamp: `None` and `0.0` are falsy
(`not(self._last_executed)` and `if not(last_executed)` treat a zero
timestamp like an absent one). -/
def falsyTime (last : Option ℚ) : Bool :=
  match last with
  | none => true
  | some t => t == 0

namespace Pypypy

/-- The `ready` property of `SegmentExecutionWithDelay`
(`src/pypypy/decorators/sewd.py`, lines 38–40):
`not(self._last_executed) or time.time() - self._last_executed >= self.delay`. -/
def SegmentExecutionWithDelay.ready (delay : ℚ) (last : Option ℚ) (now : ℚ) :
    Bool :=
  falsyTime last || decide (delay ≤ now - last.getD 0)

/-- The amount `SegmentExecutionWithDelay.__call__` sleeps before invoking
the wrapped callable (`src/pypypy/decorators/sewd.py`, lines 22–28): when
not `ready`, `delay_span = self.delay - (time.time() - self._last_executed)`,
and `time.sleep(delay_span)` runs only when the span is positive. -/
def SegmentExecutionWithDelay.sleepSpan (delay : ℚ) (last : Option ℚ)
    (now : ℚ) : ℚ :=
  if SegmentExecutionWithDelay.ready delay last now then 0
  else
    let delay_span := delay - (now - last.getD 0)
    if 0 < delay_span then delay_span else 0

/-- Result of one invocation of the pypypy throttle wrapper. -/
structure SewdRun (α : Type) where
  /-- outcome of the wrapped callable, propagated unchanged -/
  result : Except Exc α
  /-- total time slept before invoking the callable -/
  slept : ℚ
  /-- the `_last_executed` timestamp after the invocation -/
  last' : Option ℚ
deriving Repr

/-- `SegmentExecutionWithDelay.__call__`
(`src/pypypy/decorators/sewd.py`, lines 22–33).  `outcome` is the result
of the single invocation of the wrapped callable, `now` the clock when
the wrapper starts, `nowAfter` the clock when the callable returns.
`self._last_executed = time.time()` runs only after a normal return of
`self.func`; when the callable raises, the exception propagates first
and the timestamp is left unchanged. -/
def SegmentExecutionWithDelay.call (delay : ℚ) (last : Option ℚ)
    (outcome : Except Exc α) (now nowAfter : ℚ) : SewdRun α :=
  let slept := SegmentExecutionWithDelay.sleepSpan delay last now
  match outcome with
  | Except.ok v => ⟨Except.ok v, slept, some nowAfter⟩
  | Except.error e => ⟨Except.error e, slept, last⟩

end Pypypy

namespace RequestMixin

/-- Outcome of invoking the wrapper built by `segment_execution_with_delay`. -/
inductive SewdResult (α : Type) where
  /-- normal return of the wrapped callable -/
  | ok : α → SewdResult α
  /-- the `ValueError` of `try_get_delay` when the instance lacks the
      configured delay attribute -/
  | valueErrorMissingAttr : SewdResult α
  /-- an exception of the wrapped callable, propagated unchanged -/
  | funcRaised : Exc → SewdResult α
deriving DecidableEq, Repr

/-- Result of one invocation of the request_mixin throttle wrapper. -/
structure SewdRun2 (α : Type) where
  /-- the wrapper's outcome -/
  result : SewdResult α
  /-- total time slept before invoking the callable -/
  slept : ℚ
  /-- whether the wrapped callable was invoked at all -/
  invoked : Bool
  /-- the `last_executed['value']` timestamp after the invocation -/
  last' : Option ℚ
deriving Repr

/-- `delay_for` of `src/request_mixin/decorators/sewd.py`, lines 28–53:
returns `-1` when there is no stored last-execution time (Python
truthiness, so a zero timestamp also counts as absent) or when the
elapsed time already covers the delay, else the remaining span. -/
def delay_for (delay : ℚ) (last_executed : Option ℚ) (now : ℚ) : ℚ :=
  if falsyTime last_executed then -1
  else
    let time_difference := now - last_executed.getD 0
    if delay ≤ time_difference then -1
    else delay - time_difference

/-- The `wrapped` closure of `segment_execution_with_delay`
(`src/request_mixin/decorators/sewd.py`, lines 55–68) together with
`try_get_delay` (lines 21–26).  The calling instance is an association
list of numeric attributes.  When the instance lacks `delay_attribute`,
`try_get_delay` raises `ValueError` before the wrapped callable runs and
before `last_executed` is touched.  Otherwise the wrapper sleeps the
positive part of `delay_for`, invokes the callable, and records
`last_executed['value'] = time.time()` only on a normal return (an
exception propagates before the assignment). -/
def segment_execution_with_delay_wrapped (delay_attribute : String)
    (inst : List (String × ℚ)) (last : Option ℚ) (outcome : Except Exc α)
    (now nowAfter : ℚ) : SewdRun2 α :=
  match inst.lookup delay_attribute with
  | none => ⟨SewdResult.valueErrorMissingAttr, 0, false, last⟩
  | some delay_value =>
    let delay_span := delay_for delay_value last now
    let slept := if 0 < delay_span then delay_span else 0
    match outcome with
    | Except.ok v => ⟨SewdResult.ok v, slept, true, some nowAfter⟩
    | Except.error e => ⟨SewdResult.funcRaised e, slept, true, last⟩

end RequestMixin

/-!
## Helper lemmas

Generalised invariants of the three attempt loops, proved by induction on
the number of remaining attempts with the accumulators (`error_container`,
invocation count, loop index) generalised.
-/

/-- pypypy attempt loop on an always-failing callable with a non-empty
`repeat_exception_types` list: every attempt is retried (the truthy list
makes `skip` truthy without a membership test) and the final attempt
raises `StoredExceptionArray` with every collected exception in order. -/
lemma pypypy_go_allfail {α : Type} (ts : List Nat) (hts : ts ≠ [])
    (E : Nat → Exc) (n : Nat) :
    ∀ r X errs c, X + r = n → 1 ≤ r →
    Pypypy.RepeatUponError.go (some ts)
        (fun i => (Except.error (E i) : Except Exc α)) n X r errs c
      = (PyOutcome.storedArray (errs ++ (List.range' X r).map E), c + r) := by
  intro r
  induction r with
  | zero => intro X errs c _ h1; omega
  | succ r ih =>
    intro X errs c hXr _
    have hskip : (!ts.isEmpty || ts.contains (E X).kind) = true := by
      simp [List.isEmpty_iff, hts]
    rcases Nat.eq_zero_or_pos r with hr0 | hrpos
    · subst hr0
      have hX : (X == n - 1) = true := by
        have hXn : X = n - 1 := by omega
        simp [hXn]
      simp [Pypypy.RepeatUponError.go, hskip, hX, List.range'_one]
    · have hX : (X == n - 1) = false := by
        have hXn : X ≠ n - 1 := by omega
        simp [hXn]
      have hrec := ih (X + 1) (errs ++ [E X]) (c + 1) (by omega) hrpos
      simp only [Pypypy.RepeatUponError.go, hskip, hX, Bool.not_true,
        Bool.false_or, Bool.false_eq_true, if_false, hrec]
      rw [List.range'_succ, List.map_cons]
      simp only [Prod.mk.injEq]
      exact ⟨by simp, by omega⟩

/-- request_mixin `RepeatUponError` attempt loop on an always-failing
callable whose exception classes all belong to the non-empty
`repeat_exception_types` list: every attempt is retried and the final
attempt raises `StoredExceptionArray` with every collected exception. -/
lemma rm_rue_go_allfail_member {α : Type} (ts : List Nat) (hts : ts ≠ [])
    (E : Nat → Exc) (hKI : ∀ i, (E i).kind ≠ KeyboardInterruptKind)
    (hmem : ∀ i, (E i).kind ∈ ts) (n : Nat) :
    ∀ r X errs c, X + r = n → 1 ≤ r →
    RequestMixin.RepeatUponError.go (some ts)
        (fun i => (Except.error (E i) : Except Exc α)) n X r errs c
      = (PyOutcome.storedArray (errs ++ (List.range' X r).map E), c + r) := by
  intro r
  induction r with
  | zero => intro X errs c _ h1; omega
  | succ r ih =>
    intro X errs c hXr _
    have hki : ((E X).kind == KeyboardInterruptKind) = false := by
      simp [hKI X]
    have htruthy : pyTruthy (some ts) = true := by
      simp [pyTruthy, List.isEmpty_iff, hts]
    have hcont : ts.contains (E X).kind = true :=
      List.elem_eq_true_of_mem (hmem X)
    rcases Nat.eq_zero_or_pos r with hr0 | hrpos
    · subst hr0
      have hX : (X == n - 1) = true := by
        have hXn : X = n - 1 := by omega
        simp [hXn]
      simp [RequestMixin.RepeatUponError.go, hki, htruthy, hcont, hX,
        List.range'_one, hmem X]
    · have hX : (X == n - 1) = false := by
        have hXn : X ≠ n - 1 := by omega
        simp [hXn]
      have hrec := ih (X + 1) (errs ++ [E X]) (c + 1) (by omega) hrpos
      simp only [RequestMixin.RepeatUponError.go, hki, htruthy, hcont, hX,
        Bool.not_true, Bool.false_eq_true, if_false, Option.getD_some,
        Bool.not_false, if_true, hrec]
      rw [List.range'_succ, List.map_cons]
      simp only [Prod.mk.injEq]
      exact ⟨by simp, by omega⟩

/-- request_mixin `RepeatUponError` attempt loop on an always-failing
callable with `repeat_exception_types=None` (falsy): every attempt
continues until the final one, which re-raises the last exception
itself rather than the aggregate. -/
lemma rm_rue_go_allfail_none {α : Type} (E : Nat → Exc)
    (hKI : ∀ i, (E i).kind ≠ KeyboardInterruptKind) (n : Nat) :
    ∀ r X errs c, X + r = n → 1 ≤ r →
    RequestMixin.RepeatUponError.go none
        (fun i => (Except.error (E i) : Except Exc α)) n X r errs c
      = (PyOutcome.raised (E (n - 1)), c + r) := by
  intro r
  induction r with
  | zero => intro X errs c _ h1; omega
  | succ r ih =>
    intro X errs c hXr _
    have hki : ((E X).kind == KeyboardInterruptKind) = false := by
      simp [hKI X]
    rcases Nat.eq_zero_or_pos r with hr0 | hrpos
    · subst hr0
      have hXn : X = n - 1 := by omega
      have hX : (X == n - 1) = true := by simp [hXn]
      simp [RequestMixin.RepeatUponError.go, hki, pyTruthy, hX, hXn]
    · have hX : (X == n - 1) = false := by
        have hXn : X ≠ n - 1 := by omega
        simp [hXn]
      have hrec := ih (X + 1) (errs ++ [E X]) (c + 1) (by omega) hrpos
      simp only [RequestMixin.RepeatUponError.go, hki, pyTruthy, hX,
        Bool.not_false, if_true, hrec, Bool.false_eq_true, if_false]
      simp only [Prod.mk.injEq]
      exact ⟨trivial, by omega⟩

/-- `recursively_invoke_func` on an always-failing callable whose
exceptions are all retryable under the configured
`repeat_exception_types`: the recursion exhausts all attempts and
re-raises the last exception. -/
lemma rm_roe_go_allfail {α : Type} (ts : Option (List Nat)) (E : Nat → Exc)
    (hKI : ∀ i, (E i).kind ≠ KeyboardInterruptKind)
    (hretry : ∀ i, pyTruthy ts = true → (E i).kind ∈ ts.getD []) :
    ∀ a idx c,
    RequestMixin.RepeatOnError.go ts
        (fun i => (Except.error (E i) : Except Exc α)) idx a c
      = (PyOutcome.raised (E (idx + a)), c + a + 1) := by
  intro a
  induction a with
  | zero =>
    intro idx c
    have hki : ((E idx).kind == KeyboardInterruptKind) = false := by
      simp [hKI idx]
    have hretryb :
        (pyTruthy ts && !((ts.getD []).contains (E idx).kind)) = false := by
      cases h : pyTruthy ts
      · simp
      · simp [hretry idx h]
    simp [RequestMixin.RepeatOnError.go, hki, hretryb]
  | succ a ih =>
    intro idx c
    have hki : ((E idx).kind == KeyboardInterruptKind) = false := by
      simp [hKI idx]
    have hretryb :
        (pyTruthy ts && !((ts.getD []).contains (E idx).kind)) = false := by
      cases h : pyTruthy ts
      · simp
      · simp [hretry idx h]
    have hrec := ih (idx + 1) (c + 1)
    simp only [RequestMixin.RepeatOnError.go, hki, hretryb, Bool.false_eq_true,
      if_false, hrec]
    simp only [Prod.mk.injEq]
    exact ⟨by rw [Nat.add_assoc, Nat.add_comm 1 a], by omega⟩

/-- request_mixin `RepeatUponError` attempt loop: when the exception of
attempt `j` (0-based) is a `KeyboardInterrupt` and every earlier attempt
raised a retryable non-interrupt exception, the loop stops at attempt `j`
and the interrupt propagates uncaught. -/
lemma rm_rue_go_interrupt {α : Type} (ts : Option (List Nat)) (E : Nat → Exc)
    (n j : Nat) (hjn : j < n) (hKIj : (E j).kind = KeyboardInterruptKind)
    (hpre : ∀ i, i < j → (E i).kind ≠ KeyboardInterruptKind ∧
      (pyTruthy ts = true → (E i).kind ∈ ts.getD [])) :
    ∀ d X r errs c, X + d = j → X + r = n →
    RequestMixin.RepeatUponError.go ts
        (fun i => (Except.error (E i) : Except Exc α)) n X r errs c
      = (PyOutcome.raised (E j), c + d + 1) := by
  intro d
  induction d with
  | zero =>
    intro X r errs c hXd hXr
    obtain ⟨r', rfl⟩ : ∃ r', r = r' + 1 := ⟨r - 1, by omega⟩
    have hX : X = j := by omega
    subst hX
    simp [RequestMixin.RepeatUponError.go, hKIj]
  | succ d ih =>
    intro X r errs c hXd hXr
    obtain ⟨r', rfl⟩ : ∃ r', r = r' + 1 := ⟨r - 1, by omega⟩
    have hlt : X < j := by omega
    have hki : ((E X).kind == KeyboardInterruptKind) = false := by
      simp [(hpre X hlt).1]
    have hX : (X == n - 1) = false := by
      have hXn : X ≠ n - 1 := by omega
      simp [hXn]
    have hrec := ih (X + 1) r' (errs ++ [E X]) (c + 1) (by omega) (by omega)
    cases htr : pyTruthy ts with
    | false =>
      simp only [RequestMixin.RepeatUponError.go, hki, htr, Bool.not_false,
        if_true, hX, Bool.false_eq_true, if_false, hrec]
      simp only [Prod.mk.injEq]
      exact ⟨by trivial, by omega⟩
    | true =>
      have hcont : (ts.getD []).contains (E X).kind = true :=
        List.elem_eq_true_of_mem ((hpre X hlt).2 htr)
      simp only [RequestMixin.RepeatUponError.go, hki, htr, hcont, hX,
        Bool.not_true, Bool.false_eq_true, if_false, Bool.not_false, if_true,
        hrec]
      simp only [Prod.mk.injEq]
      exact ⟨by trivial, by omega⟩

/-- `recursively_invoke_func`: when the exception of attempt `j` is a
`KeyboardInterrupt` and every earlier attempt raised a retryable
non-interrupt exception, the recursion stops at attempt `j` and the
interrupt propagates via `except KeyboardInterrupt: raise`. -/
lemma rm_roe_go_interrupt {α : Type} (ts : Option (List Nat)) (E : Nat → Exc)
    (j : Nat) (hKIj : (E j).kind = KeyboardInterruptKind)
    (hpre : ∀ i, i < j → (E i).kind ≠ KeyboardInterruptKind ∧
      (pyTruthy ts = true → (E i).kind ∈ ts.getD [])) :
    ∀ d idx a c, idx + d = j → d ≤ a →
    RequestMixin.RepeatOnError.go ts
        (fun i => (Except.error (E i) : Except Exc α)) idx a c
      = (PyOutcome.raised (E j), c + d + 1) := by
  intro d
  induction d with
  | zero =>
    intro idx a c hidx _
    have hX : idx = j := by omega
    subst hX
    simp [RequestMixin.RepeatOnError.go, hKIj]
  | succ d ih =>
    intro idx a c hidx hda
    obtain ⟨a', rfl⟩ : ∃ a', a = a' + 1 := ⟨a - 1, by omega⟩
    have hlt : idx < j := by omega
    have hki : ((E idx).kind == KeyboardInterruptKind) = false := by
      simp [(hpre idx hlt).1]
    have hretryb :
        (pyTruthy ts && !((ts.getD []).contains (E idx).kind)) = false := by
      cases h : pyTruthy ts
      · simp
      · simp [(hpre idx hlt).2 h]
    have hrec := ih (idx + 1) a' (c + 1) (by omega) (by omega)
    simp only [RequestMixin.RepeatOnError.go, hki, hretryb, Bool.false_eq_true,
      if_false, hrec]
    simp only [Prod.mk.injEq]
    exact ⟨by trivial, by omega⟩

/-!
## Claims
-/

/-- **C1** (amended).  For every `max_attempts = n ≥ 1` and an
always-failing callable whose (non-interrupt) exception classes all lie
in a non-empty `repeat_exception_types` list, both `RepeatUponError`
variants invoke the callable exactly `n` times and raise
`StoredExceptionArray` carrying exactly the `n` collected exceptions in
invocation order, most recent last.  With `repeat_exception_types`
unset, however, the request_mixin `RepeatUponError` re-raises the final
exception itself after `n` invocations, and `RepeatOnError` does so in
every configuration: the aggregate error is not universal, contrary to
the claim as stated. -/
theorem retry_exhaustion_aggregate {α : Type} (ts : List Nat) (hts : ts ≠ [])
    (E : Nat → Exc) (hKI : ∀ i, (E i).kind ≠ KeyboardInterruptKind)
    (hmem : ∀ i, (E i).kind ∈ ts) (n : Nat) (hn : 1 ≤ n) :
    Pypypy.RepeatUponError.run (some ts) n
        (fun i => (Except.error (E i) : Except Exc α))
      = (PyOutcome.storedArray ((List.range n).map E), n) ∧
    RequestMixin.RepeatUponError.run (some ts) n
        (fun i => (Except.error (E i) : Except Exc α))
      = (PyOutcome.storedArray ((List.range n).map E), n) ∧
    RequestMixin.RepeatUponError.run none n
        (fun i => (Except.error (E i) : Except Exc α))
      = (PyOutcome.raised (E (n - 1)), n) ∧
    RequestMixin.RepeatOnError.run none n
        (fun i => (Except.error (E i) : Except Exc α))
      = (PyOutcome.raised (E (n - 1)), n) := by
  have h1 := pypypy_go_allfail (α := α) ts hts E n n 0 [] 0 (by omega) hn
  have h2 := rm_rue_go_allfail_member (α := α) ts hts E hKI hmem n n 0 [] 0
    (by omega) hn
  have h3 := rm_rue_go_allfail_none (α := α) E hKI n n 0 [] 0 (by omega) hn
  have h4 := rm_roe_go_allfail (α := α) none E hKI
    (by intro i h; simp [pyTruthy] at h) (n - 1) 0 0
  have hsub : n - 1 + 1 = n := by omega
  refine ⟨?_, ?_, ?_, ?_⟩
  · simpa [Pypypy.RepeatUponError.run, List.range_eq_range'] using h1
  · simpa [RequestMixin.RepeatUponError.run, List.range_eq_range'] using h2
  · simpa [RequestMixin.RepeatUponError.run] using h3
  · simpa [RequestMixin.RepeatOnError.run, hsub] using h4

/-- Witness for `retry_exhaustion_aggregate` at `ts = [5]`,
`E i = Exc.mk 5 i`, `n = 2`. -/
theorem retry_exhaustion_aggregate_witness :
    Pypypy.RepeatUponError.run (some [5]) 2
        (fun i => (Except.error (Exc.mk 5 i) : Except Exc Nat))
      = (PyOutcome.storedArray ((List.range 2).map (fun i => Exc.mk 5 i)), 2) ∧
    RequestMixin.RepeatUponError.run (some [5]) 2
        (fun i => (Except.error (Exc.mk 5 i) : Except Exc Nat))
      = (PyOutcome.storedArray ((List.range 2).map (fun i => Exc.mk 5 i)), 2) ∧
    RequestMixin.RepeatUponError.run none 2
        (fun i => (Except.error (Exc.mk 5 i) : Except Exc Nat))
      = (PyOutcome.raised (Exc.mk 5 1), 2) ∧
    RequestMixin.RepeatOnError.run none 2
        (fun i => (Except.error (Exc.mk 5 i) : Except Exc Nat))
      = (PyOutcome.raised (Exc.mk 5 1), 2) := by
  have h := retry_exhaustion_aggregate (α := Nat) [5] (by decide)
    (fun i => Exc.mk 5 i) (fun i => by simp [KeyboardInterruptKind])
    (fun i => by simp) 2 (by decide)
  simpa using h

/-- **C1** counterexample.  With `repeat_exception_types` unset (all
kinds retryable) and `max_attempts = 2`, the request_mixin
`RepeatUponError` on an always-failing callable raises the final
exception itself after 2 invocations — not the `StoredExceptionArray`
aggregate the claim promises. -/
theorem retry_exhaustion_last_exception_cex :
    RequestMixin.RepeatUponError.run none 2
        (fun i => (Except.error (Exc.mk 5 i) : Except Exc Nat))
      = (PyOutcome.raised (Exc.mk 5 1), 2) ∧
    (RequestMixin.RepeatUponError.run none 2
        (fun i => (Except.error (Exc.mk 5 i) : Except Exc Nat))).1
      ≠ PyOutcome.storedArray [Exc.mk 5 0, Exc.mk 5 1] := by
  exact ⟨by decide, by decide⟩

/-- **C2** (amended).  In the request_mixin wrappers (`RepeatUponError`
and `RepeatOnError`) a `KeyboardInterrupt` raised on any attempt `j`
(after retryable failures on the earlier attempts) propagates
immediately: the callable is invoked exactly `j + 1` times, the
interrupt is re-raised unwrapped, and it is never retried or packaged
into the aggregate.  (The pypypy `RepeatUponError` instead catches,
collects and retries interrupts — see the counterexample.) -/
theorem interrupt_propagates_request_mixin {α : Type}
    (ts : Option (List Nat)) (E : Nat → Exc) (n j : Nat) (hjn : j < n)
    (hKIj : (E j).kind = KeyboardInterruptKind)
    (hpre : ∀ i, i < j → (E i).kind ≠ KeyboardInterruptKind ∧
      (pyTruthy ts = true → (E i).kind ∈ ts.getD [])) :
    RequestMixin.RepeatUponError.run ts n
        (fun i => (Except.error (E i) : Except Exc α))
      = (PyOutcome.raised (E j), j + 1) ∧
    RequestMixin.RepeatOnError.run ts n
        (fun i => (Except.error (E i) : Except Exc α))
      = (PyOutcome.raised (E j), j + 1) := by
  have h1 := rm_rue_go_interrupt (α := α) ts E n j hjn hKIj hpre j 0 n [] 0
    (by omega) (by omega)
  have h2 := rm_roe_go_interrupt (α := α) ts E j hKIj hpre j 0 (n - 1) 0
    (by omega) (by omega)
  exact ⟨by simpa [RequestMixin.RepeatUponError.run] using h1,
    by simpa [RequestMixin.RepeatOnError.run] using h2⟩

/-- Witness for `interrupt_propagates_request_mixin`: allow-list `[5]`,
a retryable failure on attempt 1, a `KeyboardInterrupt` on attempt 2,
`max_attempts = 3`. -/
theorem interrupt_propagates_request_mixin_witness :
    RequestMixin.RepeatUponError.run (some [5]) 3
        (fun i => (Except.error (if i = 0 then Exc.mk 5 0 else Exc.mk 0 1) :
          Except Exc Nat))
      = (PyOutcome.raised (Exc.mk 0 1), 2) ∧
    RequestMixin.RepeatOnError.run (some [5]) 3
        (fun i => (Except.error (if i = 0 then Exc.mk 5 0 else Exc.mk 0 1) :
          Except Exc Nat))
      = (PyOutcome.raised (Exc.mk 0 1), 2) := by
  have h := interrupt_propagates_request_mixin (α := Nat) (some [5])
    (fun i => if i = 0 then Exc.mk 5 0 else Exc.mk 0 1) 3 1 (by decide)
    (by decide)
    (by
      intro i hi
      have hi0 : i = 0 := by omega
      subst hi0
      exact ⟨by decide, fun _ => by decide⟩)
  simpa using h

/-- **C2** counterexample.  The pypypy `RepeatUponError` catches
`KeyboardInterrupt` (its handler is `except (Exception, KeyboardInterrupt)`),
appends it to `error_container`, retries it (the non-empty allow-list
makes `skip` truthy), and finally wraps both interrupts in
`StoredExceptionArray`: the callable is invoked twice although an
interrupt was raised on attempt 1. -/
theorem pypypy_collects_interrupt_cex :
    Pypypy.RepeatUponError.run (some [5]) 2
        (fun i => (Except.error (Exc.mk KeyboardInterruptKind i) :
          Except Exc Nat))
      = (PyOutcome.storedArray [Exc.mk 0 0, Exc.mk 0 1], 2) := by
  decide

/-- The amount the pypypy throttle wrapper sleeps does not depend on the
outcome of the wrapped callable: it is the pre-invocation `sleepSpan`. -/
lemma sewd_call_slept {α : Type} (d : ℚ) (l : Option ℚ) (out : Except Exc α)
    (t1 t2 : ℚ) :
    (Pypypy.SegmentExecutionWithDelay.call d l out t1 t2).slept
      = Pypypy.SegmentExecutionWithDelay.sleepSpan d l t1 := by
  cases out <;> rfl

/-- **C3** (amended).  Both throttle wrappers record the last-completion
timestamp only when the wrapped callable returns normally: the
assignment `_last_executed = time.time()` sits after the call with no
`try`/`finally`, so when the callable raises, the exception propagates
first and the stored timestamp is left unchanged (a failing call does
NOT consume its throttle slot, contrary to the claim). -/
theorem last_completion_update_on_success_only {α : Type} (d : ℚ)
    (l : Option ℚ) (v : α) (e : Exc) (t1 t2 : ℚ) (a : String)
    (inst : List (String × ℚ)) (dv : ℚ) (hattr : inst.lookup a = some dv) :
    (Pypypy.SegmentExecutionWithDelay.call d l (Except.ok v) t1 t2).last'
      = some t2 ∧
    (Pypypy.SegmentExecutionWithDelay.call d l
        (Except.error e : Except Exc α) t1 t2).last' = l ∧
    (RequestMixin.segment_execution_with_delay_wrapped a inst l
        (Except.ok v) t1 t2).last' = some t2 ∧
    (RequestMixin.segment_execution_with_delay_wrapped a inst l
        (Except.error e : Except Exc α) t1 t2).last' = l := by
  refine ⟨rfl, rfl, ?_, ?_⟩ <;>
    simp [RequestMixin.segment_execution_with_delay_wrapped, hattr]

/-- Witness for `last_completion_update_on_success_only`. -/
theorem last_completion_update_on_success_only_witness :
    (Pypypy.SegmentExecutionWithDelay.call 5 (some 3)
        (Except.ok (0 : Nat)) 10 11).last' = some 11 ∧
    (Pypypy.SegmentExecutionWithDelay.call 5 (some 3)
        (Except.error (Exc.mk 5 0) : Except Exc Nat) 10 11).last' = some 3 ∧
    (RequestMixin.segment_execution_with_delay_wrapped "delay" [("delay", 5)]
        (some 3) (Except.ok (0 : Nat)) 10 11).last' = some 11 ∧
    (RequestMixin.segment_execution_with_delay_wrapped "delay" [("delay", 5)]
        (some 3) (Except.error (Exc.mk 5 0) : Except Exc Nat) 10 11).last'
      = some 3 := by
  have h := last_completion_update_on_success_only (α := Nat) 5 (some 3)
    0 (Exc.mk 5 0) 10 11 "delay" [("delay", 5)] 5 rfl
  simpa using h

/-- **C3** counterexample.  After a failing invocation at clock 3 that
returns control at clock 4, the pypypy throttle wrapper's stored
timestamp is still the old `some 1`, not the completion time `some 4`
the claim requires. -/
theorem failing_call_keeps_timestamp_cex :
    (Pypypy.SegmentExecutionWithDelay.call 5 (some 1)
        (Except.error (Exc.mk 5 0) : Except Exc Nat) 3 4).last' = some 1 ∧
    some (1 : ℚ) ≠ some (4 : ℚ) := by
  refine ⟨rfl, ?_⟩
  norm_num

/-- **C4**.  The failing input for the claim that an empty
`repeat_exception_types` behaves like an unset one: in the pypypy
`RepeatUponError` (whose own docstring and inline comment promise
"if None or non-truthy, all exceptions are caught") the buggy line
`skip = self.repeat_exception_types or e.__class__ in self.repeat_exception_types`
makes the empty list raise `StoredExceptionArray` after a single
invocation, while `None` crashes with `TypeError` evaluating
`e.__class__ in None` — neither configuration retries, and the two
differ from each other. -/
theorem empty_vs_unset_types_divergence :
    Pypypy.RepeatUponError.run (some []) 2
        (fun i => (Except.error (Exc.mk 5 i) : Except Exc Nat))
      = (PyOutcome.storedArray [Exc.mk 5 0], 1) ∧
    Pypypy.RepeatUponError.run none 2
        (fun i => (Except.error (Exc.mk 5 i) : Except Exc Nat))
      = (PyOutcome.typeErrorNoneMembership, 1) ∧
    RequestMixin.RepeatUponError.run (some []) 2
        (fun i => (Except.error (Exc.mk 5 i) : Except Exc Nat))
      = RequestMixin.RepeatUponError.run none 2
        (fun i => (Except.error (Exc.mk 5 i) : Except Exc Nat)) := by
  exact ⟨by decide, by decide, by decide⟩

/-- **C5** (amended).  In the request_mixin wrappers a callable that
raises a non-retryable (and non-interrupt) exception kind on attempt 1
is invoked exactly once and the original exception itself propagates
immediately.  (The pypypy `RepeatUponError` instead retries it to
exhaustion and wraps it — see the counterexample.) -/
theorem unretryable_raises_immediately {α : Type} (ts : List Nat)
    (hts : ts ≠ []) (e : Exc) (hmem : e.kind ∉ ts)
    (hKI : e.kind ≠ KeyboardInterruptKind) (n : Nat) (hn : 1 ≤ n)
    (f : Nat → Except Exc α) (hf : f 0 = Except.error e) :
    RequestMixin.RepeatUponError.run (some ts) n f = (PyOutcome.raised e, 1) ∧
    RequestMixin.RepeatOnError.run (some ts) n f = (PyOutcome.raised e, 1) := by
  obtain ⟨m, rfl⟩ : ∃ m, n = m + 1 := ⟨n - 1, by omega⟩
  have hki : (e.kind == KeyboardInterruptKind) = false := by simp [hKI]
  have htruthy : pyTruthy (some ts) = true := by
    simp [pyTruthy, List.isEmpty_iff, hts]
  have hcont : ts.contains e.kind = false := by
    cases h : ts.contains e.kind
    · rfl
    · exact absurd (List.mem_of_elem_eq_true h) hmem
  constructor
  · simp [RequestMixin.RepeatUponError.run, RequestMixin.RepeatUponError.go,
      hf, hki, htruthy, hcont, hmem]
  · have hgo : RequestMixin.RepeatOnError.go (some ts) f 0 (m + 1 - 1) 0
        = (PyOutcome.raised e, 1) := by
      rw [RequestMixin.RepeatOnError.go.eq_def]
      simp [hf, hki, htruthy, hcont, hmem]
    simpa [RequestMixin.RepeatOnError.run] using hgo

/-- Witness for `unretryable_raises_immediately`: allow-list `[5]`,
exception kind `7`, `max_attempts = 3`. -/
theorem unretryable_raises_immediately_witness :
    RequestMixin.RepeatUponError.run (some [5]) 3
        (fun _ => (Except.error (Exc.mk 7 0) : Except Exc Nat))
      = (PyOutcome.raised (Exc.mk 7 0), 1) ∧
    RequestMixin.RepeatOnError.run (some [5]) 3
        (fun _ => (Except.error (Exc.mk 7 0) : Except Exc Nat))
      = (PyOutcome.raised (Exc.mk 7 0), 1) := by
  have h := unretryable_raises_immediately (α := Nat) [5] (by decide)
    (Exc.mk 7 0) (by decide) (by decide) 3 (by decide)
    (fun _ => Except.error (Exc.mk 7 0)) rfl
  simpa using h

/-- **C5** counterexample.  The pypypy `RepeatUponError` with the
non-empty allow-list `[5]` and kind-`7` failures: the short-circuiting
`or` never consults the list, so the non-retryable exception is retried
on all 3 attempts and the failure surfaces as `StoredExceptionArray`,
not as the original exception after one invocation. -/
theorem pypypy_ignores_allowlist_cex :
    Pypypy.RepeatUponError.run (some [5]) 3
        (fun i => (Except.error (Exc.mk 7 i) : Except Exc Nat))
      = (PyOutcome.storedArray [Exc.mk 7 0, Exc.mk 7 1, Exc.mk 7 2], 3) := by
  decide

/-- **C6**.  The pypypy throttle wrapper with minimum interval `d`, a
previous completion recorded at a (positive) wall-clock time `t`, and a
second invocation starting at `now ≥ t` (gap `g = now - t`): it sleeps
exactly `d - g` when `g < d`, does not sleep when `g ≥ d` (hence never
when `d = 0`, the gap being non-negative), and never sleeps on a first
invocation (timestamp unset). -/
theorem throttle_sleep_spec (d t now t2 m m2 : ℚ) (out o : Except Exc Nat)
    (ht : 0 < t) (hmono : t ≤ now) :
    (now - t < d →
      (Pypypy.SegmentExecutionWithDelay.call d (some t) out now t2).slept
        = d - (now - t)) ∧
    (d ≤ now - t →
      (Pypypy.SegmentExecutionWithDelay.call d (some t) out now t2).slept
        = 0) ∧
    (d = 0 →
      (Pypypy.SegmentExecutionWithDelay.call d (some t) out now t2).slept
        = 0) ∧
    (Pypypy.SegmentExecutionWithDelay.call d none o m m2).slept = 0 := by
  have hfals : falsyTime (some t) = false := by
    simp [falsyTime, ht.ne']
  have key2 : d ≤ now - t →
      (Pypypy.SegmentExecutionWithDelay.call d (some t) out now t2).slept
        = 0 := by
    intro hle
    have hready :
        Pypypy.SegmentExecutionWithDelay.ready d (some t) now = true := by
      simp [Pypypy.SegmentExecutionWithDelay.ready, hfals, hle]
    rw [sewd_call_slept]
    simp [Pypypy.SegmentExecutionWithDelay.sleepSpan, hready]
  refine ⟨?_, key2, ?_, ?_⟩
  · intro hlt
    have hready :
        Pypypy.SegmentExecutionWithDelay.ready d (some t) now = false := by
      simp [Pypypy.SegmentExecutionWithDelay.ready, hfals]
      linarith
    rw [sewd_call_slept]
    simp only [Pypypy.SegmentExecutionWithDelay.sleepSpan, hready,
      Bool.false_eq_true, if_false, Option.getD_some]
    rw [if_pos (by linarith)]
  · intro h0
    exact key2 (by rw [h0]; linarith)
  · rw [sewd_call_slept]
    simp [Pypypy.SegmentExecutionWithDelay.sleepSpan,
      Pypypy.SegmentExecutionWithDelay.ready, falsyTime]

/-- Witness for `throttle_sleep_spec` at `d = 5`, `t = 1`, `now = 3`. -/
theorem throttle_sleep_spec_witness :
    ((3 : ℚ) - 1 < 5 →
      (Pypypy.SegmentExecutionWithDelay.call 5 (some 1)
        (Except.ok (0 : Nat)) 3 9).slept = 5 - (3 - 1)) ∧
    ((5 : ℚ) ≤ 3 - 1 →
      (Pypypy.SegmentExecutionWithDelay.call 5 (some 1)
        (Except.ok (0 : Nat)) 3 9).slept = 0) ∧
    ((5 : ℚ) = 0 →
      (Pypypy.SegmentExecutionWithDelay.call 5 (some 1)
        (Except.ok (0 : Nat)) 3 9).slept = 0) ∧
    (Pypypy.SegmentExecutionWithDelay.call 5 none
      (Except.ok (0 : Nat)) 7 8).slept = 0 := by
  exact throttle_sleep_spec 5 1 3 9 7 8 (Except.ok 0) (Except.ok 0)
    (by norm_num) (by norm_num)

/-- **C7** (amended).  The class-based wrappers (`RepeatUponError`, both
copies) reject a non-positive `attempt_count` at construction with a
`ValueError`; but `RepeatOnError` performs no construction-time
validation at all — it accepts any attempt count and clamps the
resolved value to a minimum of 1 at call time, so a wrapper configured
with `attempt_count ≤ 0` is fully operational and invokes the callable
once. -/
theorem attempt_count_validation (k : Int) (hk : k ≤ 0)
    (types : Option (List Nat)) (inst : List (String × Int)) (v : Nat) :
    Pypypy.RepeatUponError.init k types
      = Except.error "ValueError: Attempt Count Must Be > 0" ∧
    RequestMixin.RepeatUponError.init k types
      = Except.error "ValueError: Attempt Count Must Be > 0" ∧
    RequestMixin.RepeatOnError.call (Sum.inl k) types inst
        (fun _ => (Except.ok v : Except Exc Nat))
      = (PyOutcome.ret v, 1) := by
  have hmax : max k 1 = 1 := max_eq_right (by omega)
  refine ⟨?_, ?_, ?_⟩
  · simp [Pypypy.RepeatUponError.init, hk]
  · simp [RequestMixin.RepeatUponError.init, hk]
  · simp [RequestMixin.RepeatOnError.call,
      RequestMixin.RepeatOnError.extract_attribute, hmax,
      RequestMixin.RepeatOnError.run, RequestMixin.RepeatOnError.go]

/-- Witness for `attempt_count_validation` at `attempt_count = -3`. -/
theorem attempt_count_validation_witness :
    Pypypy.RepeatUponError.init (-3) (some [])
      = Except.error "ValueError: Attempt Count Must Be > 0" ∧
    RequestMixin.RepeatUponError.init (-3) (some [])
      = Except.error "ValueError: Attempt Count Must Be > 0" ∧
    RequestMixin.RepeatOnError.call (Sum.inl (-3)) (some []) []
        (fun _ => (Except.ok 7 : Except Exc Nat))
      = (PyOutcome.ret 7, 1) := by
  exact attempt_count_validation (-3) (by norm_num) (some []) [] 7

/-- **C7** counterexample.  A `RepeatOnError` wrapper constructed with
`attempt_count = 0` does not fail before invocation is possible: it is
a working wrapper that invokes the callable once (the count is clamped
to 1 at call time). -/
theorem repeat_on_error_accepts_zero_cex :
    RequestMixin.RepeatOnError.call (Sum.inl 0) (some []) []
        (fun _ => (Except.ok 42 : Except Exc Nat))
      = (PyOutcome.ret 42, 1) := by
  decide

/-- **C8**.  The failing input for the success-on-attempt-`k` claim: the
pypypy `RepeatUponError` with `repeat_exception_types=None` (which its
docstring promises means "all exceptions are caught and ignored") and a
callable that fails once then succeeds.  Instead of retrying and
returning 42 after 2 invocations, the wrapper crashes with the
`TypeError` from evaluating `e.__class__ in None` after a single
invocation. -/
theorem pypypy_unset_types_typeerror :
    Pypypy.RepeatUponError.run none 2
        (fun i => if i = 0 then (Except.error (Exc.mk 5 0) : Except Exc Nat)
          else Except.ok 42)
      = (PyOutcome.typeErrorNoneMembership, 1) := by
  decide

/-- **C9**.  `_extract_attribute` returns a bare value unchanged; for an
(attribute-name, fallback) pair it returns the calling instance's
attribute when present and the fallback otherwise.  The embedding is a
pure function of the instance and the setting (it returns only the
resolved value and cannot mutate the instance), matching the spec's
purity requirement. -/
theorem extract_attribute_spec (inst : List (String × Int)) (v : Int)
    (a : String) (d w : Int) :
    RequestMixin.RepeatOnError.extract_attribute inst (Sum.inl v) = v ∧
    (inst.lookup a = some w →
      RequestMixin.RepeatOnError.extract_attribute inst (Sum.inr (a, d)) = w) ∧
    (inst.lookup a = none →
      RequestMixin.RepeatOnError.extract_attribute inst (Sum.inr (a, d)) = d) := by
  refine ⟨rfl, ?_, ?_⟩ <;> intro h <;>
    simp [RequestMixin.RepeatOnError.extract_attribute, h]

/-- Witness for `extract_attribute_spec` on the instance `[("x", 7)]`. -/
theorem extract_attribute_spec_witness :
    RequestMixin.RepeatOnError.extract_attribute [("x", 7)] (Sum.inl 3) = 3 ∧
    (List.lookup "x" [("x", (7 : Int))] = some 7 →
      RequestMixin.RepeatOnError.extract_attribute [("x", 7)]
        (Sum.inr ("x", 9)) = 7) ∧
    (List.lookup "x" [("x", (7 : Int))] = none →
      RequestMixin.RepeatOnError.extract_attribute [("x", 7)]
        (Sum.inr ("x", 9)) = 9) := by
  exact extract_attribute_spec [("x", 7)] 3 "x" 9 7

/-- **C10**.  When the calling instance lacks the configured delay
attribute, the `segment_execution_with_delay` wrapper raises
`try_get_delay`'s `ValueError` before the wrapped callable is invoked
(`invoked = false`), sleeps nothing, and leaves the stored
last-execution timestamp unchanged. -/
theorem missing_delay_attribute_spec {α : Type} (a : String)
    (inst : List (String × ℚ)) (h : inst.lookup a = none) (l : Option ℚ)
    (out : Except Exc α) (t1 t2 : ℚ) :
    RequestMixin.segment_execution_with_delay_wrapped a inst l out t1 t2
      = ⟨RequestMixin.SewdResult.valueErrorMissingAttr, 0, false, l⟩ := by
  simp [RequestMixin.segment_execution_with_delay_wrapped, h]

/-- Witness for `missing_delay_attribute_spec` on an attribute-less
instance. -/
theorem missing_delay_attribute_spec_witness :
    RequestMixin.segment_execution_with_delay_wrapped "request_delay" []
        (some 3) (Except.ok (0 : Nat)) 1 2
      = ⟨RequestMixin.SewdResult.valueErrorMissingAttr, 0, false, some 3⟩ := by
  exact missing_delay_attribute_spec "request_delay" [] rfl (some 3)
    (Except.ok 0) 1 2
